import Mathlib

/-!
Shallow embedding of the reward-signer program and verification of its
specification claims.  Rust `U256` values are modelled as `Nat` with
explicit `2 ^ 256` bounds where the source checks them; `Address`
(`H160`) values are modelled as `Nat` below `2 ^ 160`; fallible Rust
code (`Result`, `Option`, `panic`/`expect`) is modelled with `Option`
and `Except`.
-/

set_option maxRecDepth 8192

namespace Signer

/-- Upper bound of the 256-bit unsigned integer type (`U256`). -/
def U256_LIMIT : Nat := 2 ^ 256

/-- Model of `U256::checked_add`: the sum when it fits in 256 bits,
`none` on overflow. -/
def u256_checked_add (a b : Nat) : Option Nat :=
  if a + b < U256_LIMIT then some (a + b) else none

/-- Model of `RewardComposition` (src/worker.rs lines 53-63): the four
per-period derived totals. -/
structure RewardComposition where
  scheduled_staking_rewards : Nat
  rollover_staking_rewards : Nat
  fees_accumulated : Nat
  rollover_fees : Nat
deriving DecidableEq

/-- Model of `RewardComposition::staking_reward_for_period`
(src/worker.rs lines 260-264): `scheduled + rollover` via
`checked_add`, with the `expect("overflow")` panic modelled as `none`. -/
def RewardComposition.staking_reward_for_period (c : RewardComposition) : Option Nat :=
  u256_checked_add c.scheduled_staking_rewards c.rollover_staking_rewards

/-- Model of `RewardComposition::fee_reward_for_period`
(src/worker.rs lines 266-270): `fees_accumulated + rollover_fees` via
`checked_add`, with the panic modelled as `none`. -/
def RewardComposition.fee_reward_for_period (c : RewardComposition) : Option Nat :=
  u256_checked_add c.fees_accumulated c.rollover_fees

/-- Model of `RewardEntry` (src/main.rs lines 172-183).  Addresses and
256-bit amounts are natural numbers. -/
structure RewardEntry where
  chain_id : Nat
  period_id : Nat
  recipient : Nat
  staking_reward : Nat
  fee_reward : Nat
deriving DecidableEq

/-- Model of `impl Ord for RewardEntry` (src/main.rs lines 221-225):
the comparison looks only at the recipient address. -/
def RewardEntry.cmp (a b : RewardEntry) : Ordering :=
  compare a.recipient b.recipient

/-- Claim C6: for every `RewardComposition` whose additions do not
overflow 256 bits, `staking_reward_for_period` is exactly
`scheduled_staking_rewards + rollover_staking_rewards` and
`fee_reward_for_period` is exactly `fees_accumulated + rollover_fees`;
when either addition would overflow, the computation is fatal (`none`)
rather than wrapping. -/
theorem reward_composition_sums (c : RewardComposition)
    (h1 : c.scheduled_staking_rewards + c.rollover_staking_rewards < U256_LIMIT)
    (h2 : c.fees_accumulated + c.rollover_fees < U256_LIMIT) :
    c.staking_reward_for_period
        = some (c.scheduled_staking_rewards + c.rollover_staking_rewards)
      ∧ c.fee_reward_for_period = some (c.fees_accumulated + c.rollover_fees)
      ∧ (∀ d : RewardComposition,
          U256_LIMIT ≤ d.scheduled_staking_rewards + d.rollover_staking_rewards →
          d.staking_reward_for_period = none)
      ∧ (∀ d : RewardComposition,
          U256_LIMIT ≤ d.fees_accumulated + d.rollover_fees →
          d.fee_reward_for_period = none) := by
  refine ⟨?_, ?_, ?_, ?_⟩
  · simp [RewardComposition.staking_reward_for_period, u256_checked_add, h1]
  · simp [RewardComposition.fee_reward_for_period, u256_checked_add, h2]
  · intro d hd
    simp [RewardComposition.staking_reward_for_period, u256_checked_add]
    omega
  · intro d hd
    simp [RewardComposition.fee_reward_for_period, u256_checked_add]
    omega

/-- Witness for claim C6 at a concrete composition. -/
theorem reward_composition_sums_witness :
    (RewardComposition.mk 7 5 3 2).staking_reward_for_period = some 12
      ∧ (RewardComposition.mk 7 5 3 2).fee_reward_for_period = some 5 := by
  have h := reward_composition_sums (RewardComposition.mk 7 5 3 2)
    (by norm_num [U256_LIMIT]) (by norm_num [U256_LIMIT])
  exact ⟨h.1, h.2.1⟩

/-- Claim C10: the total order on `RewardEntry` compares only the
recipient, while equality compares all five fields, so two entries with
the same recipient but different rewards compare `Equal` without being
equal: the order is not antisymmetric with respect to structural
equality. -/
theorem reward_entry_cmp_not_antisymmetric :
    (∀ a b : RewardEntry, RewardEntry.cmp a b = compare a.recipient b.recipient)
      ∧ ∃ a b : RewardEntry,
          RewardEntry.cmp a b = Ordering.eq ∧ a ≠ b
            ∧ a.recipient = b.recipient ∧ a.staking_reward ≠ b.staking_reward := by
  refine ⟨fun a b => rfl, ⟨1, 136, 5, 10, 0⟩, ⟨1, 136, 5, 20, 0⟩, ?_, ?_, rfl, ?_⟩
  · decide
  · decide
  · decide

/-! Pagination (src/graphql.rs).  The page service is modelled the way
the spec's mocked query service behaves: a request with
`(first = QUERY_ENTRY_COUNT, skip)` returns the slice
`(all.drop skip).take QUERY_ENTRY_COUNT` of the `N`-entry data set.
The per-page retry loop is modelled separately below (claim C3); here
each page fetch is taken as succeeding. -/

/-- Hard-coded page size `QUERY_ENTRY_COUNT` (src/graphql.rs line 146). -/
def QUERY_ENTRY_COUNT : Nat := 1000

/-- Model of the `.map(try_into).collect::<Result<Vec<_>>>()` step of
`get_entries_in_batches` (src/graphql.rs lines 229-239): converts each
raw row, failing closed on the first malformed row. -/
def collect_converted (conv : ρ → Option τ) : List ρ → Option (List τ)
  | [] => some []
  | r :: rest =>
    match conv r with
    | none => none
    | some t =>
      match collect_converted conv rest with
      | none => none
      | some ts => some (t :: ts)

/-- One round of the pagination `loop` of `get_entries_in_batches`
(src/graphql.rs lines 199-244), started at a given `skip`
(`skip = entries.len()` accumulated so far).  Returns the collected
typed entries together with the number of page requests made, or
`none` when a row fails conversion.  The loop stops when a returned
page is shorter than `QUERY_ENTRY_COUNT`.  The Rust `loop` has no
fuel; the structural `fuel` argument only bounds the iteration for the
embedding and is chosen large enough below (the theorems show the loop
in fact stops after finitely many pages). -/
def get_entries_in_batches_go (conv : ρ → Option τ) (all : List ρ) :
    Nat → Nat → Option (List τ × Nat)
  | 0, _ => none
  | fuel + 1, skip =>
    let batch := (all.drop skip).take QUERY_ENTRY_COUNT
    match collect_converted conv batch with
    | none => none
    | some converted =>
      if batch.length < QUERY_ENTRY_COUNT then
        some (converted, 1)
      else
        match get_entries_in_batches_go conv all fuel (skip + QUERY_ENTRY_COUNT) with
        | none => none
        | some (rest, requests) => some (converted ++ rest, requests + 1)

/-- Model of `get_entries_in_batches` (src/graphql.rs lines 193-247):
the pagination loop started with an empty accumulator (`skip = 0`),
with fuel that the theorems below show is never exhausted. -/
def get_entries_in_batches (conv : ρ → Option τ) (all : List ρ) :
    Option (List τ × Nat) :=
  get_entries_in_batches_go conv all (all.length + 1) 0

/-- Helper: converting with a total conversion never fails. -/
theorem collect_converted_some (l : List ρ) :
    collect_converted (fun r => some r) l = some l := by
  induction l with
  | nil => rfl
  | cons r rest ih => simp [collect_converted, ih]

/-- Helper: with enough fuel, the pagination loop started at `skip`
returns the remaining `all.length - skip` entries using
`(all.length - skip) / 1000 + 1` page requests. -/
theorem get_entries_in_batches_go_eq :
    ∀ (fuel : Nat) (l : List ρ) (s : Nat),
      l.length - s < fuel * QUERY_ENTRY_COUNT →
      get_entries_in_batches_go (fun r => some r) l fuel s
        = some (l.drop s, (l.length - s) / QUERY_ENTRY_COUNT + 1) := by
  have h1000 : 0 < QUERY_ENTRY_COUNT := by simp [QUERY_ENTRY_COUNT]
  intro fuel
  induction fuel with
  | zero => intro l s hs; omega
  | succ fuel ih =>
    intro l s hs
    rw [get_entries_in_batches_go]
    simp only [collect_converted_some]
    by_cases hshort : ((l.drop s).take QUERY_ENTRY_COUNT).length < QUERY_ENTRY_COUNT
    · have hlen : l.length - s < QUERY_ENTRY_COUNT := by
        simp only [List.length_take, List.length_drop] at hshort
        omega
      have htake : (l.drop s).take QUERY_ENTRY_COUNT = l.drop s := by
        apply List.take_of_length_le
        simp only [List.length_drop]
        omega
      rw [if_pos hshort, htake, Nat.div_eq_of_lt hlen]
    · have hlen : QUERY_ENTRY_COUNT ≤ l.length - s := by
        simp only [List.length_take, List.length_drop] at hshort
        omega
      have hrec := ih l (s + QUERY_ENTRY_COUNT)
        (by rw [Nat.succ_mul] at hs; omega)
      rw [if_neg hshort, hrec]
      have hdd : l.drop (s + QUERY_ENTRY_COUNT) = (l.drop s).drop QUERY_ENTRY_COUNT := by
        rw [List.drop_drop, Nat.add_comm]
      have hjoin : (l.drop s).take QUERY_ENTRY_COUNT ++ l.drop (s + QUERY_ENTRY_COUNT)
          = l.drop s := by
        rw [hdd]
        exact List.take_append_drop _ _
      have hdiv : (l.length - (s + QUERY_ENTRY_COUNT)) / QUERY_ENTRY_COUNT + 1
          = (l.length - s) / QUERY_ENTRY_COUNT := by
        rw [Nat.div_eq_sub_div h1000 hlen]
        have harg : l.length - (s + QUERY_ENTRY_COUNT) = l.length - s - QUERY_ENTRY_COUNT := by
          omega
        rw [harg]
      simp only [hjoin, hdiv]

/-- Claim C2 (amended): for every query service holding `N` entries and
serving pages of at most `P = QUERY_ENTRY_COUNT = 1000` entries, the
batched fetch terminates and returns exactly the `N` entries, making
`N / P + 1` page requests — that is `⌈N/P⌉` requests when `P` does not
divide `N`, and one more than `⌈N/P⌉` (a final short page) when `P`
divides `N`, including `N = 0`, which takes one request. -/
theorem get_entries_in_batches_count (all : List ρ) :
    get_entries_in_batches (fun r => some r) all
      = some (all, all.length / QUERY_ENTRY_COUNT + 1)
      ∧ (¬ (QUERY_ENTRY_COUNT ∣ all.length) →
          all.length / QUERY_ENTRY_COUNT + 1
            = (all.length + QUERY_ENTRY_COUNT - 1) / QUERY_ENTRY_COUNT) := by
  constructor
  · rw [get_entries_in_batches, get_entries_in_batches_go_eq]
    · simp
    · have h1000 : 0 < QUERY_ENTRY_COUNT := by simp [QUERY_ENTRY_COUNT]
      have h1 : all.length ≤ all.length * QUERY_ENTRY_COUNT :=
        Nat.le_mul_of_pos_right _ h1000
      rw [Nat.succ_mul]
      omega
  · intro hndvd
    rcases Nat.lt_or_ge (all.length % QUERY_ENTRY_COUNT) 1 with hmod | hmod
    · exact absurd (Nat.dvd_of_mod_eq_zero (by omega)) hndvd
    · have h1000 : 0 < QUERY_ENTRY_COUNT := by simp [QUERY_ENTRY_COUNT]
      have hdecomp := Nat.div_add_mod all.length QUERY_ENTRY_COUNT
      have hmodlt := Nat.mod_lt all.length h1000
      rw [Nat.add_sub_assoc (by omega), Nat.add_div h1000]
      have : (QUERY_ENTRY_COUNT - 1) / QUERY_ENTRY_COUNT = 0 :=
        Nat.div_eq_of_lt (by omega)
      have hmod2 : (QUERY_ENTRY_COUNT - 1) % QUERY_ENTRY_COUNT
          = QUERY_ENTRY_COUNT - 1 :=
        Nat.mod_eq_of_lt (by omega)
      simp only [this, hmod2]
      have : QUERY_ENTRY_COUNT ≤ all.length % QUERY_ENTRY_COUNT
          + (QUERY_ENTRY_COUNT - 1) := by omega
      simp [this]

/-- Witness for claim C2 at a concrete one-entry data set: one page
request returns the single entry, and for this `N` not divisible by
`P` the count agrees with `⌈N/P⌉`. -/
theorem get_entries_in_batches_count_witness :
    get_entries_in_batches (fun r => some r) [(0 : Nat)] = some ([(0 : Nat)], 1)
      ∧ (1 : Nat) / QUERY_ENTRY_COUNT + 1
          = (1 + QUERY_ENTRY_COUNT - 1) / QUERY_ENTRY_COUNT := by
  have h := get_entries_in_batches_count [(0 : Nat)]
  refine ⟨?_, ?_⟩
  · have h1 := h.1
    simpa [QUERY_ENTRY_COUNT] using h1
  · have h2 := h.2 (by decide)
    simpa using h2

/-- Counterexample for claim C2 as stated: with `N = 0` the fetch makes
one page request, not `⌈0/1000⌉ = 0`, so the claimed request count
fails at the boundary case. -/
theorem get_entries_in_batches_count_refuted :
    get_entries_in_batches (fun r => some (r : Nat)) []
        = some (([] : List Nat), 1)
      ∧ (0 + QUERY_ENTRY_COUNT - 1) / QUERY_ENTRY_COUNT = 0
      ∧ (1 : Nat) ≠ 0 := by
  refine ⟨?_, by simp [QUERY_ENTRY_COUNT], by decide⟩
  rw [get_entries_in_batches, get_entries_in_batches_go_eq]
  · simp
  · simp [QUERY_ENTRY_COUNT]

/-! Retry loops.  The GraphQL per-page retry loop (src/graphql.rs
lines 209-225) and the per-entry signing retry loop (src/main.rs lines
428-456).  An attempt is modelled as a function from the attempt index
(the value of the loop counter when the attempt is made) to `some`
result or `none`; the fixed 10-second sleep between signing attempts
has no observable effect on the returned value and is not modelled. -/

/-- Hard-coded retry ceiling `GRAPHQL_RETRY_COUNT` (src/graphql.rs
line 147). -/
def GRAPHQL_RETRY_COUNT : Nat := 5

/-- Model of the inner retry `loop` of `get_entries_in_batches`
(src/graphql.rs lines 209-225): attempt, and on failure increment
`ind_retry` and bail out once `ind_retry > GRAPHQL_RETRY_COUNT`.  The
structural `fuel` only bounds the iteration for the embedding; started
with fuel `GRAPHQL_RETRY_COUNT + 1` it is never exhausted, because the
counter check fires first. -/
def graphql_retry_go (try_get : Nat → Option α) : Nat → Nat → Option α
  | 0, _ => none
  | fuel + 1, ind_retry =>
    match try_get ind_retry with
    | some value => some value
    | none =>
      if ind_retry + 1 > GRAPHQL_RETRY_COUNT then none
      else graphql_retry_go try_get fuel (ind_retry + 1)

/-- The GraphQL retry loop entered with `ind_retry = 0`. -/
def graphql_retry (try_get : Nat → Option α) : Option α :=
  graphql_retry_go try_get (GRAPHQL_RETRY_COUNT + 1) 0

/-- Model of the signing retry `loop` of `sign_rewards` (src/main.rs
lines 431-456): attempt, and on failure increment `failed_attempts`
and bail out once `failed_attempts >= 10`.  Started with fuel `10` the
fuel is never exhausted, because the counter check fires first. -/
def sign_retry_go (attempt : Nat → Option α) : Nat → Nat → Option α
  | 0, _ => none
  | fuel + 1, failed_attempts =>
    match attempt failed_attempts with
    | some value => some value
    | none =>
      if failed_attempts + 1 ≥ 10 then none
      else sign_retry_go attempt fuel (failed_attempts + 1)

/-- The signing retry loop entered with `failed_attempts = 0`. -/
def sign_retry (attempt : Nat → Option α) : Option α :=
  sign_retry_go attempt 10 0

/-- Model of `Signature` (src/main.rs lines 201-208). -/
structure Signature where
  signer : Nat
  signature : List Nat
deriving DecidableEq

/-- Model of `SignedRewardEntry` (src/main.rs lines 193-199). -/
structure SignedRewardEntry where
  reward : RewardEntry
  signatures : List Signature
deriving DecidableEq

/-- Model of `sign_rewards` (src/main.rs lines 382-468): sign each
entry in order through the retry loop; exhausting the retry ceiling on
any entry aborts the whole batch (`none`), so no partial list of
signed entries is ever returned. -/
def sign_rewards (sign_attempt : RewardEntry → Nat → Option (List Nat))
    (signer_address : Nat) : List RewardEntry → Option (List SignedRewardEntry)
  | [] => some []
  | entry :: rest =>
    match sign_retry (sign_attempt entry) with
    | none => none
    | some signature_bytes =>
      match sign_rewards sign_attempt signer_address rest with
      | none => none
      | some signed =>
        some ({ reward := entry,
                signatures := [{ signer := signer_address,
                                 signature := signature_bytes }] } :: signed)

/-- An operation that fails its first `f` attempts and succeeds from
attempt `f` on (attempts are indexed from 0). -/
def fails_then (f : Nat) (v : α) : Nat → Option α :=
  fun n => if n < f then none else some v

/-- Helper: the GraphQL retry loop succeeds exactly when at most
`GRAPHQL_RETRY_COUNT = 5` initial attempts fail: it makes up to six
attempts. -/
theorem graphql_retry_fails_then (f : Nat) (v : α) :
    graphql_retry (fails_then f v)
      = if f ≤ GRAPHQL_RETRY_COUNT then some v else none := by
  rcases le_or_lt f GRAPHQL_RETRY_COUNT with hf | hf
  · rw [if_pos hf]
    simp only [GRAPHQL_RETRY_COUNT] at hf
    interval_cases f <;> rfl
  · rw [if_neg (by omega)]
    simp only [GRAPHQL_RETRY_COUNT] at hf
    have hlt : ∀ n : Nat, n < 6 → n < f := by omega
    simp [graphql_retry, graphql_retry_go, fails_then, hlt, GRAPHQL_RETRY_COUNT]

/-- Helper: the signing retry loop succeeds exactly when at most nine
initial attempts fail: it makes at most ten attempts in total. -/
theorem sign_retry_fails_then (g : Nat) (w : α) :
    sign_retry (fails_then g w) = if g ≤ 9 then some w else none := by
  rcases le_or_lt g 9 with hg | hg
  · rw [if_pos hg]
    interval_cases g <;> rfl
  · rw [if_neg (by omega)]
    have hlt : ∀ n : Nat, n < 10 → n < g := by omega
    simp [sign_retry, sign_retry_go, fails_then, hlt]

/-- Helper: if the signing retry loop is exhausted for any entry of
the batch, the whole batch aborts with no partial output. -/
theorem sign_rewards_aborts (sign_attempt : RewardEntry → Nat → Option (List Nat))
    (signer_address : Nat) (entries : List RewardEntry) (e : RewardEntry)
    (hmem : e ∈ entries) (hfail : sign_retry (sign_attempt e) = none) :
    sign_rewards sign_attempt signer_address entries = none := by
  induction entries with
  | nil => cases hmem
  | cons head rest ih =>
    rcases List.mem_cons.mp hmem with rfl | hmem2
    · simp [sign_rewards, hfail]
    · cases h : sign_retry (sign_attempt head) <;>
        simp [sign_rewards, h, ih hmem2]

/-- Claim C3 (amended): the GraphQL page fetch is retried against a
ceiling of `GRAPHQL_RETRY_COUNT = 5`: an operation failing exactly 5
times then succeeding returns success, and one failing 6 times returns
an error.  The signing loop treats its ceiling of 10 as a bound on the
total number of attempts: an operation failing exactly 9 times then
succeeding returns success, while one failing 10 times returns an
error (it is not retried an 11th time).  Exhausting the signing
ceiling on any entry aborts the whole batch, so no partial list of
signed entries is returned. -/
theorem retry_ceiling_behavior (f g : Nat) (v : α) (w : List Nat)
    (sign_attempt : RewardEntry → Nat → Option (List Nat)) (signer_address : Nat)
    (entries : List RewardEntry) (e : RewardEntry)
    (hmem : e ∈ entries) (hfail : sign_retry (sign_attempt e) = none) :
    graphql_retry (fails_then f v)
        = (if f ≤ GRAPHQL_RETRY_COUNT then some v else none)
      ∧ sign_retry (fails_then g w) = (if g ≤ 9 then some w else none)
      ∧ sign_rewards sign_attempt signer_address entries = none :=
  ⟨graphql_retry_fails_then f v, sign_retry_fails_then g w,
    sign_rewards_aborts sign_attempt signer_address entries e hmem hfail⟩

/-- Witness for claim C3 at concrete inputs: failing exactly 5 times
before a GraphQL success and exactly 9 times before a signing success
both succeed, and a batch whose only entry never signs aborts. -/
theorem retry_ceiling_behavior_witness :
    graphql_retry (fails_then 5 (0 : Nat)) = some 0
      ∧ sign_retry (fails_then 9 ([] : List Nat)) = some []
      ∧ sign_rewards (fun _ _ => none) 0 [RewardEntry.mk 1 136 5 1 0] = none := by
  have h := retry_ceiling_behavior 5 9 (0 : Nat) ([] : List Nat)
    (fun _ _ => none) 0 [RewardEntry.mk 1 136 5 1 0] (RewardEntry.mk 1 136 5 1 0)
    (by simp) rfl
  refine ⟨?_, ?_, h.2.2⟩
  · simpa using h.1
  · simpa using h.2.1

/-- Counterexample for claim C3 as stated: a signing operation that
fails exactly 10 times (attempts 0 through 9) and would succeed on the
next attempt is not given that attempt — the loop returns an error,
though the claim promises success after exactly `ceiling = 10`
failures. -/
theorem sign_retry_ceiling_refuted :
    sign_retry (fails_then 10 ([7] : List Nat)) = none
      ∧ fails_then 10 ([7] : List Nat) 9 = none
      ∧ fails_then 10 ([7] : List Nat) 10 = some [7] :=
  ⟨rfl, rfl, rfl⟩

/-! Coordination client (src/worker.rs).  Each operation sends one
HTTP request and handles the one response; the response is modelled as
its status code and body text, and the external JSON decoding
(`serde_json` / `response.json()`) as a parse function.  The `anyhow`
error value each operation can produce is modelled as `WorkerError`,
carrying exactly the data the corresponding `bail!` message carries. -/

/-- The error values of the worker-client operations.
`unsuccessful_status` models `bail!("unsuccessful status code: {}",
status_code)` — the response body is written to the debug log only and
is not part of the error.  `checksum_mismatch` models
`bail!("config checksum mismatch: expected: ..; actual: ..")`.
`json_error` models a propagated JSON decoding error. -/
inductive WorkerError where
  | unsuccessful_status (status : Nat)
  | checksum_mismatch (expected actual : List Nat)
  | json_error
deriving DecidableEq

/-- Model of `reqwest::StatusCode::is_success`: the 2xx range. -/
def status_is_success (status : Nat) : Bool :=
  decide (200 ≤ status ∧ status < 300)

/-- Model of `WorkerConfig` (src/worker.rs lines 24-29). -/
structure WorkerConfig where
  first_period_start_time : Nat
  period_duration : Nat
  signers : List Nat
deriving DecidableEq

/-- Model of `ScheduledReward` (src/config.rs lines 16-20). -/
structure ScheduledReward where
  period_id : Nat
  reward : Nat
deriving DecidableEq

/-- Model of `RewardConfig` (src/config.rs lines 8-12). -/
structure RewardConfig where
  has_legacy_chain : Bool
  exclude_list : List Nat
  staking_reward_schedule : List ScheduledReward
deriving DecidableEq

/-- Model of `WorkerClient::get_worker_config` (src/worker.rs lines
77-94): non-success status bails with the status code, success decodes
the body. -/
def get_worker_config (parse : String → Option (Option WorkerConfig))
    (status : Nat) (body : String) : Except WorkerError (Option WorkerConfig) :=
  if (!status_is_success status) then .error (.unsuccessful_status status)
  else
    match parse body with
    | some value => .ok value
    | none => .error .json_error

/-- Model of `WorkerClient::get_reward_config_checked` (src/worker.rs
lines 96-129): non-success status bails with the status code;
otherwise the raw body text is hashed and compared against the
caller-supplied checksum, bailing on mismatch; only then is the body
parsed.  The external SHA-256 implementation (`sha2` crate) is a
parameter. -/
def get_reward_config_checked (sha256 : String → List Nat)
    (parse : String → Option RewardConfig) (checksum : List Nat)
    (status : Nat) (body : String) : Except WorkerError RewardConfig :=
  if (!status_is_success status) then .error (.unsuccessful_status status)
  else
    let hash_from_worker := sha256 body
    if checksum ≠ hash_from_worker then
      .error (.checksum_mismatch checksum hash_from_worker)
    else
      match parse body with
      | some config => .ok config
      | none => .error .json_error

/-- Model of `WorkerClient::get_last_period_id` (src/worker.rs lines
131-148). -/
def get_last_period_id (parse : String → Option Nat)
    (status : Nat) (body : String) : Except WorkerError Nat :=
  if (!status_is_success status) then .error (.unsuccessful_status status)
  else
    match parse body with
    | some value => .ok value
    | none => .error .json_error

/-- Model of `WorkerClient::get_signer_staged` (src/worker.rs lines
150-172). -/
def get_signer_staged (parse : String → Option Bool)
    (status : Nat) (body : String) : Except WorkerError Bool :=
  if (!status_is_success status) then .error (.unsuccessful_status status)
  else
    match parse body with
    | some value => .ok value
    | none => .error .json_error

/-- Model of `WorkerClient::get_stage_ready` (src/worker.rs lines
174-194). -/
def get_stage_ready (parse : String → Option Bool)
    (status : Nat) (body : String) : Except WorkerError Bool :=
  if (!status_is_success status) then .error (.unsuccessful_status status)
  else
    match parse body with
    | some value => .ok value
    | none => .error .json_error

/-- Model of `WorkerClient::set_worker_config` (src/worker.rs lines
196-214): success returns unit. -/
def set_worker_config (status : Nat) (body : String) : Except WorkerError Unit :=
  if (!status_is_success status) then .error (.unsuccessful_status status)
  else .ok ()

/-- Model of `WorkerClient::stage` (src/worker.rs lines 216-234):
success returns unit. -/
def stage (status : Nat) (body : String) : Except WorkerError Unit :=
  if (!status_is_success status) then .error (.unsuccessful_status status)
  else .ok ()

/-- Model of `WorkerClient::publish` (src/worker.rs lines 236-256):
success returns unit. -/
def publish (status : Nat) (body : String) : Except WorkerError Unit :=
  if (!status_is_success status) then .error (.unsuccessful_status status)
  else .ok ()

/-- Claim C4: on a successful HTTP response, `get_reward_config_checked`
returns an error whenever the hash of the raw body text differs from
the expected checksum — for every parse function, so regardless of
whether the body is valid JSON — and when the hash matches it parses
the body and returns the parsed `RewardConfig`. -/
theorem get_reward_config_checked_gate (sha256 : String → List Nat)
    (parse : String → Option RewardConfig) (checksum : List Nat)
    (status : Nat) (body : String)
    (hstatus : status_is_success status = true) :
    (sha256 body ≠ checksum →
        get_reward_config_checked sha256 parse checksum status body
          = .error (.checksum_mismatch checksum (sha256 body)))
      ∧ (sha256 body = checksum → ∀ config, parse body = some config →
          get_reward_config_checked sha256 parse checksum status body
            = .ok config) := by
  constructor
  · intro hne
    have hcond : checksum ≠ sha256 body := fun h => hne h.symm
    simp [get_reward_config_checked, hstatus, hcond]
  · intro heq config hparse
    simp [get_reward_config_checked, hstatus, heq, hparse]

/-- Witness for claim C4 at concrete inputs: a mismatched checksum is
rejected even though the parse function would succeed, and a matching
checksum yields the parsed config. -/
theorem get_reward_config_checked_gate_witness :
    get_reward_config_checked (fun _ => [1]) (fun _ => some (RewardConfig.mk false [] []))
        [2] 200 "x" = .error (.checksum_mismatch [2] [1])
      ∧ get_reward_config_checked (fun _ => [1]) (fun _ => some (RewardConfig.mk false [] []))
          [1] 200 "x" = .ok (RewardConfig.mk false [] []) := by
  constructor
  · exact (get_reward_config_checked_gate (fun _ => [1])
      (fun _ => some (RewardConfig.mk false [] [])) [2] 200 "x" rfl).1 (by decide)
  · exact (get_reward_config_checked_gate (fun _ => [1])
      (fun _ => some (RewardConfig.mk false [] [])) [1] 200 "x" rfl).2 rfl _ rfl

/-- Claim C8 (amended): for every coordination-service operation, a
response with a non-success HTTP status yields the error
`unsuccessful_status status`, which carries the status code; the
response body is only written to the debug log and is not carried in
the error.  No retry is performed inside the client: each operation is
a function of the single response it receives. -/
theorem worker_client_status_error (status : Nat) (body : String)
    (parse_wc : String → Option (Option WorkerConfig))
    (parse_nat : String → Option Nat) (parse_bool : String → Option Bool)
    (sha256 : String → List Nat) (parse_rc : String → Option RewardConfig)
    (checksum : List Nat)
    (hstatus : status_is_success status = false) :
    get_worker_config parse_wc status body = .error (.unsuccessful_status status)
      ∧ set_worker_config status body = .error (.unsuccessful_status status)
      ∧ get_reward_config_checked sha256 parse_rc checksum status body
          = .error (.unsuccessful_status status)
      ∧ get_last_period_id parse_nat status body = .error (.unsuccessful_status status)
      ∧ get_signer_staged parse_bool status body = .error (.unsuccessful_status status)
      ∧ get_stage_ready parse_bool status body = .error (.unsuccessful_status status)
      ∧ stage status body = .error (.unsuccessful_status status)
      ∧ publish status body = .error (.unsuccessful_status status) := by
  refine ⟨?_, ?_, ?_, ?_, ?_, ?_, ?_, ?_⟩ <;>
    simp [get_worker_config, set_worker_config, get_reward_config_checked,
      get_last_period_id, get_signer_staged, get_stage_ready, stage, publish,
      hstatus]

/-- Witness for claim C8 at a concrete non-success response. -/
theorem worker_client_status_error_witness :
    stage 500 "internal error text" = .error (.unsuccessful_status 500)
      ∧ publish 500 "internal error text" = .error (.unsuccessful_status 500) := by
  have h := worker_client_status_error 500 "internal error text"
    (fun _ => none) (fun _ => none) (fun _ => none) (fun _ => []) (fun _ => none)
    [] rfl
  exact ⟨h.2.2.2.2.2.2.1, h.2.2.2.2.2.2.2⟩

/-- A parse function used only to state the claim C8 counterexample in
closed form. -/
def discard_parse : String → Option (Option WorkerConfig) :=
  fun _ => none

/-- Counterexample for claim C8 as stated: two responses with the same
non-success status but different bodies produce the same error value,
so the error cannot carry the response body — it carries only the
status code. -/
theorem worker_client_error_drops_body :
    get_worker_config discard_parse 500 "body A"
        = get_worker_config discard_parse 500 "body B"
      ∧ "body A" ≠ "body B"
      ∧ get_worker_config discard_parse 500 "body A"
          = .error (.unsuccessful_status 500) :=
  ⟨rfl, by decide, rfl⟩

/-! Signing authority (src/wallet.rs). -/

/-- Model of the `Wallet` enum (src/wallet.rs lines 10-14): the local
plaintext-key variant (after `with_chain_id`) or the AWS KMS remote
variant.  A local key is modelled by its numeric value, the remote
signer by its key id and region. -/
inductive Wallet where
  | localWallet (key : Nat) (chain_id : Nat)
  | aws (key_id : String) (region : String) (chain_id : Nat)
deriving DecidableEq

/-- Model of `Wallet::from_source` (src/wallet.rs lines 53-81).  The
external `AwsSigner::new` construction (a KMS round trip) is a
parameter `aws_new`; the match on `(private_key, aws_key_id)` and the
region check follow the source. -/
def Wallet.from_source (aws_new : String → String → Nat → Except String Wallet)
    (private_key : Option Nat) (aws_key_id : Option String)
    (aws_region : Option String) (chain_id : Nat) : Except String Wallet :=
  match private_key, aws_key_id with
  | some key, none => .ok (.localWallet key chain_id)
  | none, some key_id =>
    match aws_region with
    | none => .error "AWS region not provided"
    | some region => aws_new key_id region chain_id
  | _, _ => .error "more than 1 key store provided"

/-- Claim C9: wallet construction succeeds exactly when one key-custody
backend is selected — a local private key alone yields the local
variant, an AWS key id with region alone yields the remote variant
(when the external KMS construction succeeds), and configuring neither
backend or both backends is a configuration error. -/
theorem wallet_from_source_selection
    (aws_new : String → String → Nat → Except String Wallet)
    (key : Nat) (key_id region : String) (chain_id : Nat)
    (region_opt : Option String)
    (haws : aws_new key_id region chain_id = .ok (.aws key_id region chain_id)) :
    Wallet.from_source aws_new (some key) none region_opt chain_id
        = .ok (.localWallet key chain_id)
      ∧ Wallet.from_source aws_new none (some key_id) (some region) chain_id
          = .ok (.aws key_id region chain_id)
      ∧ Wallet.from_source aws_new none none region_opt chain_id
          = .error "more than 1 key store provided"
      ∧ Wallet.from_source aws_new (some key) (some key_id) region_opt chain_id
          = .error "more than 1 key store provided"
      ∧ Wallet.from_source aws_new none (some key_id) none chain_id
          = .error "AWS region not provided" := by
  exact ⟨rfl, by simp [Wallet.from_source, haws], rfl, rfl, rfl⟩

/-- Witness for claim C9 at concrete configuration values. -/
theorem wallet_from_source_selection_witness :
    Wallet.from_source (fun k r c => .ok (.aws k r c)) (some 42) none none 1
        = .ok (.localWallet 42 1)
      ∧ Wallet.from_source (fun k r c => .ok (.aws k r c)) none (some "kms-key")
          (some "us-east-1") 1 = .ok (.aws "kms-key" "us-east-1" 1)
      ∧ Wallet.from_source (fun k r c => .ok (.aws k r c)) none none none 1
          = .error "more than 1 key store provided"
      ∧ Wallet.from_source (fun k r c => .ok (.aws k r c)) (some 42) (some "kms-key")
          none 1 = .error "more than 1 key store provided" := by
  have h := wallet_from_source_selection (fun k r c => .ok (.aws k r c))
    42 "kms-key" "us-east-1" 1 none rfl
  exact ⟨h.1, h.2.1, h.2.2.1, h.2.2.2.1⟩

/-! EIP-712 typed-data construction (src/main.rs lines 389-424).  The
external `keccak256` primitive (ethers crate) is a parameter; byte
strings are lists of byte values.  `abi::encode` over the static
tokens used here head-encodes each token as one 32-byte big-endian
word. -/

/-- Big-endian byte-list value. -/
def beBytesToNat (bytes : List Nat) : Nat :=
  bytes.foldl (fun acc b => acc * 256 + b) 0

/-- Fixed-length big-endian byte encoding of a natural number. -/
def natToBeBytes : Nat → Nat → List Nat
  | 0, _ => []
  | len + 1, n => natToBeBytes len (n / 256) ++ [n % 256]

/-- Byte encoding of an ASCII string (code points equal UTF-8 bytes
for the ASCII strings hashed here). -/
def stringBytes (s : String) : List Nat :=
  s.toList.map Char.toNat

/-- Model of the `ethers::abi::Token` values used in `struct_hash`:
256-bit unsigned words and 160-bit addresses. -/
inductive Token where
  | uint (value : Nat)
  | address (value : Nat)

/-- Head encoding of one static token as a 32-byte word
(`ethers::abi::encode`). -/
def Token.abiEncode : Token → List Nat
  | .uint value => natToBeBytes 32 (value % 2 ^ 256)
  | .address value => natToBeBytes 32 (value % 2 ^ 160)

/-- Model of `ethers::abi::encode` restricted to the static tokens
used here: concatenation of the head encodings. -/
def abi_encode (tokens : List Token) : List Nat :=
  (tokens.map Token.abiEncode).flatten

/-- Model of `ethers` `EIP712Domain` (the fields set in src/main.rs
lines 399-407). -/
structure EIP712Domain where
  name : Option String
  version : Option String
  chain_id : Option Nat
  verifying_contract : Option Nat
  salt : Option (List Nat)
deriving DecidableEq

/-- Model of the local `Eip712RewardEntry` struct (src/main.rs lines
389-394). -/
structure Eip712RewardEntry where
  inner : RewardEntry
  chain_id : Nat
  contract_name : String
  contract_address : Nat

/-- The canonical struct signature hashed for the type hash
(src/main.rs line 411). -/
def rewardTypeDescription : String :=
  "Reward(uint256 periodId,address recipient,uint256 stakingReward,uint256 feeReward)"

/-- Model of `Eip712RewardEntry::domain` (src/main.rs lines 399-407). -/
def Eip712RewardEntry.domain (e : Eip712RewardEntry) : EIP712Domain :=
  { name := some e.contract_name
    version := some "1"
    chain_id := some e.chain_id
    verifying_contract := some e.contract_address
    salt := none }

/-- Model of `Eip712RewardEntry::type_hash` (src/main.rs lines
409-413): keccak256 of the canonical struct signature. -/
def Eip712RewardEntry.type_hash (keccak : List Nat → List Nat) : List Nat :=
  keccak (stringBytes rewardTypeDescription)

/-- Model of `Eip712RewardEntry::struct_hash` (src/main.rs lines
415-423): keccak256 of the ABI encoding of
`(type_hash, period_id, recipient, staking_reward, fee_reward)`,
the type hash being reinterpreted as a 256-bit word
(`U256::from(Self::type_hash()?)`). -/
def Eip712RewardEntry.struct_hash (keccak : List Nat → List Nat)
    (e : Eip712RewardEntry) : List Nat :=
  keccak (abi_encode
    [ Token.uint (beBytesToNat (Eip712RewardEntry.type_hash keccak))
    , Token.uint e.inner.period_id
    , Token.address e.inner.recipient
    , Token.uint e.inner.staking_reward
    , Token.uint e.inner.fee_reward ])

/-- Claim C5: the typed-data payload has a domain separator built from
`(contract_name, version "1", chain_id, verifying_contract)` (no
salt), and a struct hash that is keccak256 of the concatenated 32-byte
words of the tuple `(type_hash, period_id, recipient, staking_reward,
fee_reward)`, where the type hash is keccak256 of the canonical struct
signature string. -/
theorem eip712_reward_entry_construction (keccak : List Nat → List Nat)
    (e : Eip712RewardEntry) (hrecip : e.inner.recipient < 2 ^ 160) :
    e.domain = EIP712Domain.mk (some e.contract_name) (some "1")
        (some e.chain_id) (some e.contract_address) none
      ∧ Eip712RewardEntry.type_hash keccak
          = keccak (stringBytes
              "Reward(uint256 periodId,address recipient,uint256 stakingReward,uint256 feeReward)")
      ∧ e.struct_hash keccak
          = keccak (natToBeBytes 32
                (beBytesToNat (Eip712RewardEntry.type_hash keccak) % 2 ^ 256)
              ++ natToBeBytes 32 (e.inner.period_id % 2 ^ 256)
              ++ natToBeBytes 32 e.inner.recipient
              ++ natToBeBytes 32 (e.inner.staking_reward % 2 ^ 256)
              ++ natToBeBytes 32 (e.inner.fee_reward % 2 ^ 256)) := by
  refine ⟨rfl, rfl, ?_⟩
  simp only [Eip712RewardEntry.struct_hash, abi_encode, Token.abiEncode,
    List.map, List.flatten_cons, List.flatten_nil, List.append_nil,
    List.append_assoc, Nat.mod_eq_of_lt hrecip]

/-- A stand-in hash used only to state witnesses in closed form. -/
def fake_keccak : List Nat → List Nat :=
  fun bytes => [bytes.length % 256]

/-- Witness for claim C5 at a concrete entry: the domain fields and
the struct-hash input (five 32-byte words, 160 bytes in total). -/
theorem eip712_reward_entry_construction_witness :
    (Eip712RewardEntry.mk (RewardEntry.mk 1 136 5 7 9) 1 "Linear" 3).domain
        = EIP712Domain.mk (some "Linear") (some "1") (some 1) (some 3) none
      ∧ (Eip712RewardEntry.mk (RewardEntry.mk 1 136 5 7 9) 1 "Linear" 3).struct_hash
          fake_keccak = [160] := by
  have h := eip712_reward_entry_construction fake_keccak
    (Eip712RewardEntry.mk (RewardEntry.mk 1 136 5 7 9) 1 "Linear" 3) (by decide)
  refine ⟨h.1, ?_⟩
  rw [h.2.2]
  rfl

/-! The run loop (src/main.rs).  `main` hard-codes
`first_period_start_time = UNIX_EPOCH + 10s`, `period_duration = 2s`
and `claim_window_period_count = 2` (lines 303-305); `run_once` (lines
353-380) builds its reward entries without consulting any collected
data or configuration. -/

/-- Value of one hexadecimal digit character (`hex::decode` accepts
both cases). -/
def hex_digit_value (c : Char) : Option Nat :=
  if 48 ≤ c.toNat ∧ c.toNat ≤ 57 then some (c.toNat - 48)
  else if 97 ≤ c.toNat ∧ c.toNat ≤ 102 then some (c.toNat - 87)
  else if 65 ≤ c.toNat ∧ c.toNat ≤ 70 then some (c.toNat - 55)
  else none

/-- Model of `hex::decode` over a character list: two hex digits per
byte, failing on an odd length or an invalid digit. -/
def hex_decode_chars : List Char → Option (List Nat)
  | [] => some []
  | [_] => none
  | hi :: lo :: rest =>
    match hex_digit_value hi, hex_digit_value lo, hex_decode_chars rest with
    | some h, some l, some bytes => some ((h * 16 + l) :: bytes)
    | _, _, _ => none

/-- Model of `hex::decode` on a string. -/
def hex_decode (s : String) : Option (List Nat) :=
  hex_decode_chars s.toList

/-- Model of `Address::from_slice`: requires exactly 20 bytes (the
source panics otherwise). -/
def address_from_slice (bytes : List Nat) : Option Nat :=
  if bytes.length = 20 then some (beBytesToNat bytes) else none

/-- Value of one decimal digit character. -/
def dec_digit_value (c : Char) : Option Nat :=
  if 48 ≤ c.toNat ∧ c.toNat ≤ 57 then some (c.toNat - 48) else none

/-- Decimal evaluation of a character list, failing on a non-digit. -/
def dec_digits_value (acc : Nat) : List Char → Option Nat
  | [] => some acc
  | c :: rest =>
    match dec_digit_value c with
    | none => none
    | some d => dec_digits_value (acc * 10 + d) rest

/-- Model of `U256::from_dec_str`: decimal parse failing on invalid
characters or 256-bit overflow. -/
def u256_from_dec_str (s : String) : Option Nat :=
  match dec_digits_value 0 s.toList with
  | none => none
  | some n => if n < U256_LIMIT then some n else none

/-- The recipient string hard-coded in `run_once` (src/main.rs line
356). -/
def recipient_hex : String := "0x742d35Cc6634C0532925a3b844Bc454e4438f44e"

/-- Model of the reward entries built by one `run_once` iteration
(src/main.rs lines 355-364): a single hard-coded entry, with the
`unwrap` panics of the literal parses modelled as `none`.  `run_once`
takes no collected data: the debt entries, schedule, prior claims and
exclusion list have no influence on its output. -/
def run_once_reward_entries (chain_id : Nat) : Option (List RewardEntry) :=
  match hex_decode (recipient_hex.drop 2) with
  | none => none
  | some recipient_bytes =>
    match address_from_slice recipient_bytes with
    | none => none
    | some recipient =>
      match u256_from_dec_str "100000000000000000",
            u256_from_dec_str "100000000000000000" with
      | some staking_reward, some fee_reward =>
        some [{ chain_id := chain_id
                period_id := 136
                recipient := recipient
                staking_reward := staking_reward
                fee_reward := fee_reward }]
      | _, _ => none

/-- Claim C1 (amended): one iteration of the run loop produces exactly
one `RewardEntry`, for the hard-coded recipient
`0x742d35Cc6634C0532925a3b844Bc454e4438f44e`, with
`staking_reward = 100000000000000000` and
`fee_reward = 100000000000000000` — independent of any debt entries,
schedule, prior claims or exclusions, which `run_once` does not
consult. -/
theorem run_once_entries_spec (chain_id : Nat) :
    run_once_reward_entries chain_id
      = some [RewardEntry.mk chain_id 136
          0x742d35Cc6634C0532925a3b844Bc454e4438f44e
          100000000000000000 100000000000000000] := by
  rfl

/-- Counterexample for claim C1 as stated: at chain id 1 the single
entry produced by the iteration has `fee_reward = 100000000000000000`,
not the claimed `fee_reward = 0`. -/
theorem run_once_fee_reward_refuted :
    (run_once_reward_entries 1).map (fun entries => entries.map RewardEntry.fee_reward)
        = some [100000000000000000]
      ∧ (100000000000000000 : Nat) ≠ 0 := by
  exact ⟨rfl, by decide⟩

/-- Claim C7 evaluated at its failing input: with the hard-coded
recipient placed on the `exclude_list` of a `RewardConfig`, the
iteration still outputs a `RewardEntry` for that address —
`run_once_reward_entries` has no exclusion parameter at all, so the
exclusion invariant fails on the code. -/
theorem run_once_ignores_exclude_list :
    (RewardConfig.mk false [0x742d35Cc6634C0532925a3b844Bc454e4438f44e]
        []).exclude_list.contains 0x742d35Cc6634C0532925a3b844Bc454e4438f44e = true
      ∧ (run_once_reward_entries 1).map (fun entries => entries.map RewardEntry.recipient)
          = some [0x742d35Cc6634C0532925a3b844Bc454e4438f44e] := by
  exact ⟨rfl, rfl⟩

end Signer
